import Mathlib

/-!
Verification of the sfmon monitoring service against its natural-language
specification.  The Python modules under src/ are shallowly embedded as
executable Lean definitions: stateful gauge updates become explicit state
passing over association lists, fallible calls become outcome sum types,
and logging is tracked as a count of error lines.
-/

namespace Sfmon

/-! ### Python-style primitives

A parsed record or CSV row is an untyped string-keyed mapping; we model it
as an association list with Python dict `.get` semantics. -/

abbrev Row := List (String × String)

/-- Python `row.get(k)`: first binding for the key, if any. -/
def rowGet? (r : Row) (k : String) : Option String :=
  (r.find? (fun p => p.1 == k)).map (fun p => p.2)

/-- Python `row.get(k, d)`: binding for the key or the default. -/
def rowGetD (r : Row) (k d : String) : String :=
  (rowGet? r k).getD d

/-- Rebuild a string from its character list.  (The core `String`
operations recurse on byte positions, which the kernel cannot unfold, so
the embeddings below work on `String.data` with structural recursion.) -/
def ofChars (l : List Char) : String := ⟨l⟩

/-- Whether the first list starts with the second. -/
def listStartsWith : List Char → List Char → Bool
  | _, [] => true
  | [], _ :: _ => false
  | a :: as, b :: bs => a == b && listStartsWith as bs

/-- Whether `needle` occurs as a contiguous run inside `hay`. -/
def listContainsSub (needle : List Char) : List Char → Bool
  | [] => needle.isEmpty
  | c :: rest => listStartsWith (c :: rest) needle || listContainsSub needle rest

/-- Split a character list at every character satisfying `p`, keeping
empty pieces (Python `str.split(sep)` semantics for one-char `sep`). -/
def splitPred (p : Char → Bool) : List Char → List (List Char)
  | [] => [[]]
  | c :: rest =>
    let r := splitPred p rest
    if p c then [] :: r
    else
      match r with
      | g :: gs => (c :: g) :: gs
      | [] => [[c]]

/-- Join character-list pieces with a separator character. -/
def joinChar (c : Char) : List (List Char) → List Char
  | [] => []
  | [g] => g
  | g :: gs => g ++ c :: joinChar c gs

/-- Python `s.strip()`. -/
def pyStrip (s : String) : String :=
  ⟨((s.data.dropWhile Char.isWhitespace).reverse.dropWhile
      Char.isWhitespace).reverse⟩

/-- Python `s.lower()` for ASCII content. -/
def pyLower (s : String) : String := ⟨s.data.map Char.toLower⟩

/-- Python `s.upper()` for ASCII content. -/
def pyUpper (s : String) : String := ⟨s.data.map Char.toUpper⟩

/-- Python `s.startswith(pre)`. -/
def pyStartsWith (s pre : String) : Bool := listStartsWith s.data pre.data

/-- Python `s.isdigit()` for ASCII content: nonempty and all digits. -/
def pyIsdigit (s : String) : Bool :=
  s.data.length > 0 && s.data.all Char.isDigit

/-- Numeric value of a digit string. -/
def parseNatChars (l : List Char) : Nat :=
  l.foldl (fun n c => n * 10 + (c.toNat - 48)) 0

/-- Python `int(s)` on a digit string (callers guard with `isdigit`). -/
def digitsToInt (s : String) : Int :=
  (parseNatChars s.data : Nat)

/-- Python `needle in haystack` substring test. -/
def pyContains (needle hay : String) : Bool :=
  listContainsSub needle.data hay.data

/-- Python `s.split()`: split on whitespace runs, dropping empty pieces. -/
def pySplitWs (s : String) : List String :=
  ((splitPred Char.isWhitespace s.data).map ofChars).filter (fun p => p ≠ "")

/-- Python `s.split(sep)` for a one-character separator. -/
def pySplitChar (sep : Char) (s : String) : List String :=
  (splitPred (fun c => c == sep) s.data).map ofChars

/-- Python dict assignment `d[k] = v`: replace in place, else append. -/
def dictInsert (d : List (String × String)) (k v : String) :
    List (String × String) :=
  if d.any (fun p => p.1 == k) then
    d.map (fun p => if p.1 == k then (k, v) else p)
  else d ++ [(k, v)]

/-- Python set `s.add(x)` over an insertion-ordered list model. -/
def pySetAdd [BEq α] (s : List α) (x : α) : List α :=
  if s.contains x then s else s ++ [x]

/-- A Prometheus gauge with label type `L` and value type `V`: the set of
currently exported series, keyed by label tuple.  `labels(...).set(v)`
overwrites the series with the same label tuple. -/
def setSeries [BEq L] (s : List (L × V)) (lab : L) (v : V) : List (L × V) :=
  if s.any (fun p => p.1 == lab) then
    s.map (fun p => if p.1 == lab then (lab, v) else p)
  else s ++ [(lab, v)]

/-! ### query.py — paged query helpers

`sf.query_all` / `sf.toolingexecute` either return a result mapping (which
may or may not contain a `records` key) or raise one of the exceptions the
helper catches.  The helper returns the record list together with the
number of `logger.error` lines it emitted. -/

/-- Outcome of the underlying Simple-Salesforce call. -/
inductive QueryOutcome (α : Type) where
  | ok (records? : Option (List α))
  | timeout
  | malformed (msg : String)
  | exn (msg : String)

/-- A failure outcome is anything the helper catches. -/
def QueryOutcome.isFailure : QueryOutcome α → Bool
  | .ok _ => false
  | _ => true

/-- Return value of a query helper: records plus errors logged. -/
structure QueryReturn (α : Type) where
  records : List α
  errorsLogged : Nat
deriving DecidableEq

/-- Embedding of `query_records_all` (src/src/sfmon/query.py lines 37-50). -/
def query_records_all : QueryOutcome α → QueryReturn α
  | .ok (some rs) => ⟨rs, 0⟩
  | .ok none => ⟨[], 0⟩
  | .timeout => ⟨[], 1⟩
  | .malformed _ => ⟨[], 1⟩
  | .exn _ => ⟨[], 1⟩

/-- Embedding of `tooling_query_records_all` (query.py lines 53-66); the
body mirrors the standard variant on the tooling endpoint. -/
def tooling_query_records_all : QueryOutcome α → QueryReturn α
  | .ok (some rs) => ⟨rs, 0⟩
  | .ok none => ⟨[], 0⟩
  | .timeout => ⟨[], 1⟩
  | .malformed _ => ⟨[], 1⟩
  | .exn _ => ⟨[], 1⟩

/-! ### scripts/log_parser.py — log fetch helper -/

/-- Outcome of the authenticated HTTP GET for a log body; `failure` covers
both network errors and non-2xx statuses (`raise_for_status`). -/
inductive HttpOutcome where
  | failure (msg : String)
  | ok (body : String)

/-- The `csv.DictReader(StringIO(content))` handed back to callers: a
row-oriented reader determined by the delimited content. -/
structure DictReader where
  content : String
deriving DecidableEq

/-- Embedding of `parse_logs` (src/scripts/log_parser.py lines 46-74).
`qo` is the outcome of the selector query (whose `ORDER BY LogDate DESC`
puts the newest log first) and `download` maps a log id to the HTTP
outcome for its LogFile endpoint.  Returns the reader (or none) and the
total number of error lines logged. -/
def parse_logs (qo : QueryOutcome Row) (download : String → HttpOutcome) :
    Option DictReader × Nat :=
  let q := query_records_all qo
  match q.records with
  | [] => (none, q.errorsLogged)
  | r :: _ =>
    match rowGet? r "Id" with
    | none => (none, q.errorsLogged + 1)
    | some logId =>
      match download logId with
      | .failure _ => (none, q.errorsLogged + 1)
      | .ok body =>
        if body = "" then (none, q.errorsLogged)
        else (some ⟨body⟩, q.errorsLogged)

/-! ### config.py — configuration loading and schedule parsing

A CronTrigger keyword dictionary is modelled as an insertion-ordered
association list.  `json.loads` (the standard library) is a parameter. -/

abbrev Schedule := List (String × String)

/-- Character class of the regex in `parse_cron_schedule`. -/
def cronSimpleChar (c : Char) : Bool :=
  c.isDigit || c == '*' || c == '/' || c == ','

/-- Python regex match for the simple-minute format. -/
def matchesSimpleMinute (s : String) : Bool :=
  s.data.length > 0 && s.data.all cronSimpleChar

/-- The tail of `parse_cron_schedule` (config.py lines 175-182): the
simple-minute fallback, else the logged warning and `None`. -/
def cronTailFallback (s : String) : Option Schedule × Nat :=
  if matchesSimpleMinute s then (some [("minute", s)], 0) else (none, 1)

/-- Embedding of `parse_cron_schedule` (src/src/sfmon/config.py lines
121-182; the copy in salesforce_monitoring.py lines 80-141 is identical),
returning the parsed trigger dictionary together with the number of
warnings logged.  `jsonLoads` stands for `json.loads` restricted to flat
string objects; it is only consulted for inputs starting with a brace. -/
def parse_cron_schedule_log (jsonLoads : String → Option Schedule)
    (s0 : String) : Option Schedule × Nat :=
  if s0 = "" || pyLower s0 = "disabled" || pyLower s0 = "none" then (none, 0)
  else
    let s := pyStrip s0
    match (if pyStartsWith s "\x7b" then jsonLoads s else none) with
    | some d => (some d, 0)
    | none =>
      let cronParts := pySplitWs s
      if cronParts.length = 5 then
        let result := (["minute", "hour", "day", "month", "day_of_week"].zip
            cronParts).foldl
          (fun acc kv => if kv.2 ≠ "*" then acc ++ [(kv.1, kv.2)] else acc) []
        (if result = [] then none else some result, 0)
      else if pyContains "=" s then
        let params := (pySplitChar ',' s).foldl
          (fun acc part =>
            match pySplitChar '=' part with
            | k :: v :: rest =>
              dictInsert acc (pyStrip k)
                (pyStrip (ofChars (joinChar '=' ((v :: rest).map String.data))))
            | _ => acc) []
        if params ≠ [] then (some params, 0) else cronTailFallback s
      else cronTailFallback s

/-- The value `parse_cron_schedule` returns to its caller. -/
def parse_cron_schedule (jsonLoads : String → Option Schedule)
    (s0 : String) : Option Schedule :=
  (parse_cron_schedule_log jsonLoads s0).1

/-- Embedding of `get_schedule_config` (salesforce_monitoring.py lines
144-171): environment-variable override of a job's default schedule.
An unset or empty variable keeps the default; a `disabled`/unparsable
value yields `none`, skipping the job. -/
def get_schedule_config (env : String → Option String)
    (jsonLoads : String → Option Schedule) (jobId : String)
    (defaultSchedule : Option Schedule) : Option Schedule :=
  match env ("SCHEDULE_" ++ pyUpper jobId) with
  | some v =>
    if v ≠ "" then
      match parse_cron_schedule jsonLoads v with
      | none => none
      | some p => some p
    else defaultSchedule
  | none => defaultSchedule

/-- The merged configuration dictionary `load_config` returns. -/
structure Config where
  schedules : List (String × String)
  integrationUserNames : Option (List String)
  excludeUsers : List String
deriving DecidableEq

/-- What the file system yields for the config path on one call:
missing file, JSON decode error, other read error, or parsed content. -/
inductive FileWorld where
  | missing
  | jsonError
  | readError
  | parsed (schedules : List (String × String))
      (integrationUserNames : Option (List String))
      (excludeUsers : List String)
deriving DecidableEq

/-- The module-level mutable state of config.py: `_cached_config` and
`_config_file_has_schedules`. -/
structure CfgState where
  cachedConfig : Option Config
  hasSchedules : Option Bool
deriving DecidableEq

/-- The `default_config` dictionary in `load_config`. -/
def defaultConfig : Config := ⟨[], none, []⟩

/-- Module state before the first call. -/
def initCfgState : CfgState := ⟨none, none⟩

/-- Embedding of `load_config` (config.py lines 43-104) as a state
transformer: returns the configuration and the updated module state. -/
def load_config (w : FileWorld) (forceReload : Bool) (st : CfgState) :
    Config × CfgState :=
  match st.cachedConfig, forceReload with
  | some c, false => (c, st)
  | _, _ =>
    match w with
    | .missing => (defaultConfig, ⟨some defaultConfig, some false⟩)
    | .jsonError => (defaultConfig, ⟨some defaultConfig, some false⟩)
    | .readError => (defaultConfig, ⟨some defaultConfig, some false⟩)
    | .parsed s i e =>
      let r : Config := ⟨s, i, e⟩
      (r, ⟨some r, some (decide (s ≠ []))⟩)

/-- Embedding of `has_custom_schedules` (config.py lines 107-118). -/
def has_custom_schedules (w : FileWorld) (st : CfgState) : Bool × CfgState :=
  match st.hasSchedules with
  | some b => (b, st)
  | none =>
    let r := load_config w false st
    ((r.2.hasSchedules).getD false, r.2)

/-- Embedding of `get_schedule_from_config` (config.py lines 185-225):
opt-in schedule lookup from the loaded config file. -/
def get_schedule_from_config (jsonLoads : String → Option Schedule)
    (w : FileWorld) (st : CfgState) (jobId : String)
    (defaultSchedule : Option Schedule) : Option Schedule × CfgState :=
  let r1 := load_config w false st
  let r2 := has_custom_schedules w r1.2
  if r2.1 = false then (defaultSchedule, r2.2)
  else
    match rowGet? r1.1.schedules (pyLower jobId) with
    | none => (none, r2.2)
    | some cs =>
      match parse_cron_schedule jsonLoads cs with
      | none => (none, r2.2)
      | some p => (some p, r2.2)

/-- Results of a sequence of `load_config(force_reload=False)` calls,
threading the module state; the file-system world may differ per call. -/
def load_config_seq : CfgState → List FileWorld → List Config
  | _, [] => []
  | st, w :: ws =>
    let r := load_config w false st
    r.1 :: load_config_seq r.2 ws

/-- Concrete environment refuting C3's malformed-input clause: the
schedule variable for `monitor_salesforce_limits` is set to `garbage`. -/
def c3Env : String → Option String :=
  fun n => if n = "SCHEDULE_MONITOR_SALESFORCE_LIMITS" then some "garbage"
           else none

/-- A `json.loads` stand-in that accepts nothing (no input below starts
with a brace, so nothing depends on it). -/
def noJson : String → Option Schedule := fun _ => none

/-! ### connection_sf.py — session provider

`get_salesforce_connection_url` shells out to the Salesforce CLI twice
(login, then display) and builds the Simple-Salesforce session from the
parsed JSON of the second command.  The CLI and `json.loads` are modelled
as an environment; the result is an `Except` (raised exception or
session) plus a trace of how many external commands ran and how many
error lines were logged. -/

/-- Outcome of one `subprocess.run(..., check=True)` invocation. -/
inductive CmdOutcome where
  | ok (stdout : String)
  | nonzero (stderr stdout : String)

/-- The `result` object of `sf org display --json`, with each expected
field possibly missing. -/
structure ResultFields where
  accessToken : Option String
  instanceUrl : Option String
  apiVersion : Option String

/-- Parsed JSON of the display command (`result` key possibly missing). -/
structure DisplayJson where
  result : Option ResultFields

/-- The external world the session provider interacts with. -/
structure CliEnv where
  sfPath : Option String
  login : CmdOutcome
  display : CmdOutcome
  jsonLoads : String → Option DisplayJson

/-- The Simple-Salesforce connection object constructed on success. -/
structure Session where
  instanceUrl : String
  sessionId : String
  domain : String
  version : String
deriving DecidableEq

/-- The exception kinds `get_salesforce_connection_url` can raise. -/
inductive ConnError where
  | valueError
  | fileNotFoundError
  | calledProcessError
  | jsonDecodeError
  | keyError
deriving DecidableEq

/-- Observable side effects: external commands run, errors logged. -/
structure ConnTrace where
  commandsRun : Nat
  errorsLogged : Nat
deriving DecidableEq

/-- Embedding of `get_salesforce_connection_url`
(src/src/sfmon/connection_sf.py lines 41-110) together with
`_get_sf_command` (lines 27-38).  A missing or empty auth URL raises
`ValueError` before anything external happens; a non-zero CLI exit is
logged (three error lines) and re-raised; JSON decode failure propagates
unlogged; a missing expected key is logged and re-raised. -/
def get_salesforce_connection_url (url : Option String) (env : CliEnv) :
    Except ConnError Session × ConnTrace :=
  match url with
  | none => (.error .valueError, ⟨0, 0⟩)
  | some u =>
    if u = "" then (.error .valueError, ⟨0, 0⟩)
    else
      match env.sfPath with
      | none => (.error .fileNotFoundError, ⟨0, 0⟩)
      | some _ =>
        match env.login with
        | .nonzero _ _ => (.error .calledProcessError, ⟨1, 3⟩)
        | .ok _ =>
          match env.display with
          | .nonzero _ _ => (.error .calledProcessError, ⟨2, 3⟩)
          | .ok out =>
            match env.jsonLoads out with
            | none => (.error .jsonDecodeError, ⟨2, 0⟩)
            | some info =>
              match info.result with
              | none => (.error .keyError, ⟨2, 1⟩)
              | some r =>
                match r.accessToken, r.instanceUrl, r.apiVersion with
                | some tok, some iu, some av =>
                  (.ok ⟨iu, tok,
                        if pyContains "sandbox" iu then "test" else "login",
                        av⟩, ⟨2, 0⟩)
                | _, _, _ => (.error .keyError, ⟨2, 1⟩)

/-! ### Large-query monitoring

Two snapshots exist: the current audit/large_queries.py (configurable
threshold, sentinel series) and the older compliance.py (fixed 10k
threshold, per-tuple counts, no sentinel). -/

/-- A Python value that may be `None`. -/
abbrev PyStr := Option String

/-- Label tuple of `hourly_large_query_metric` as set by
audit/large_queries.py (user_id, user_name, method, entity_name). -/
structure LQLabel where
  userId : String
  userName : String
  method : PyStr
  entityName : PyStr
deriving DecidableEq

/-- Element of the `large_queries` set built by the audit collector. -/
abbrev LQTuple := String × String × PyStr × PyStr × Int

/-- Embedding of audit/large_queries.py `is_large_query` (lines 86-98);
the threshold comes from LARGE_QUERY_THRESHOLD (default 10000). -/
def audit_is_large_query (threshold : Int) (row : Row) : Bool :=
  let rp := rowGetD row "ROWS_PROCESSED" ""
  pyIsdigit rp && digitsToInt rp > threshold

/-- Embedding of compliance.py `is_large_query` (lines 112-123) with its
hard-coded 10000 threshold. -/
def compliance_is_large_query (row : Row) : Bool :=
  let rp := rowGetD row "ROWS_PROCESSED" ""
  pyIsdigit rp && digitsToInt rp > 10000

/-- Python `int(row.get('ROWS_PROCESSED', 0))` (the callers only reach it
after `is_large_query` has checked the field is all digits). -/
def rowsProcessedInt (row : Row) : Int :=
  match rowGet? row "ROWS_PROCESSED" with
  | none => 0
  | some s => digitsToInt s

/-- Embedding of audit/large_queries.py `collect_large_queries` (lines
46-83).  `apiLogRecords` is the `parse_logs` result (`none` = no log) and
`userName` models the `get_user_name` lookup per user id. -/
def audit_collect_large_queries (threshold : Int)
    (userName : String → String) (apiLogRecords : Option (List Row)) :
    List LQTuple :=
  match apiLogRecords with
  | none => []
  | some rows =>
    rows.foldl (fun s row =>
      if !audit_is_large_query threshold row then s
      else
        match rowGet? row "USER_ID" with
        | none => s
        | some uid =>
          if uid = "" then s
          else pySetAdd s (uid, userName uid, rowGet? row "METHOD_NAME",
            rowGet? row "ENTITY_NAME", rowsProcessedInt row)) []

/-- The sentinel label values of audit/large_queries.py lines 118-124. -/
def sentinelLQLabel : LQLabel :=
  ⟨"none", "No Large Queries", some "none", some "none"⟩

/-- Embedding of audit/large_queries.py `report_large_queries` (lines
101-124): clear the gauge, then one series per tuple valued at its
rows_processed, or the single sentinel series when the set is empty. -/
def audit_report_large_queries (_g : List (LQLabel × Int))
    (lqs : List LQTuple) : List (LQLabel × Int) :=
  if lqs ≠ [] then
    lqs.foldl (fun acc t =>
      setSeries acc ⟨t.1, t.2.1, t.2.2.1, t.2.2.2.1⟩ t.2.2.2.2) []
  else [(sentinelLQLabel, 0)]

/-- Label tuple passed by compliance.py `report_large_queries` (lines
126-141); it includes rows_processed.  (The gauge declared in gauges.py
names only four labels, so a non-empty report would raise at runtime; the
empty-input path proved below performs no `labels()` call.) -/
structure CLQLabel where
  userId : String
  userName : String
  method : PyStr
  entityName : PyStr
  rowsProcessed : Int
deriving DecidableEq

/-- Key of the `large_query_counts` dict in compliance.py. -/
abbrev CKey := String × String × PyStr × PyStr × Int

/-- Embedding of compliance.py `report_large_queries` (lines 126-141):
clear the gauge, then one series per dict entry valued at its count.
There is no sentinel branch. -/
def compliance_report_large_queries (_g : List (CLQLabel × Int))
    (counts : List (CKey × Nat)) : List (CLQLabel × Int) :=
  counts.foldl (fun acc kc =>
    setSeries acc
      ⟨kc.1.1, kc.1.2.1, kc.1.2.2.1, kc.1.2.2.2.1, kc.1.2.2.2.2⟩
      (kc.2 : Int)) []

/-! ### compliance.py — suspicious audit-trail records -/

/-- A SetupAuditTrail record as read by `extract_record_data` and
`is_allowed_action`; each field may be missing (`None`), and `CreatedBy`
is a nested mapping when present. -/
structure AuditRecord where
  action : PyStr
  sectionName : PyStr
  createdBy : Option Row
  createdDate : PyStr
  display : PyStr
  delegateUser : PyStr

/-- Label tuple of `suspicious_records_gauge` as passed by
`expose_record_metric` via `extract_record_data`. -/
structure SuspLabel where
  action : String
  sectionName : String
  user : String
  createdDate : String
  display : String
  delegateUser : String
deriving DecidableEq

/-- Embedding of compliance.py `extract_record_data` (lines 161-171). -/
def extract_record_data (r : AuditRecord) : SuspLabel :=
  ⟨r.action.getD "Unknown", r.sectionName.getD "Unknown",
   (match r.createdBy with
    | some d => rowGetD d "Name" "Unknown"
    | none => "Unknown"),
   r.createdDate.getD "Unknown", r.display.getD "Unknown",
   r.delegateUser.getD "Unknown"⟩

/-- Embedding of compliance.py `is_allowed_action` (lines 187-198);
`excludeUsers` and `allowedSectionsActions` model the EXCLUDE_USERS and
ALLOWED_SECTIONS_ACTIONS constants (dict lookup with default `[]`). -/
def is_allowed_action (excludeUsers : List String)
    (allowedSectionsActions : String → List String) (r : AuditRecord) :
    Bool :=
  let user := match r.createdBy with
    | some d => rowGetD d "Name" "Unknown"
    | none => "Unknown"
  if excludeUsers.contains user then true
  else
    ((allowedSectionsActions (r.sectionName.getD "Unknown")).map
      pyLower).contains (pyLower (r.action.getD "Unknown"))

/-- Embedding of compliance.py `process_suspicious_records` (lines
179-184): one series valued 1 per non-allowed record. -/
def process_suspicious_records (excludeUsers : List String)
    (allowedSectionsActions : String → List String)
    (records : List AuditRecord) (g : List (SuspLabel × Int)) :
    List (SuspLabel × Int) :=
  records.foldl (fun acc r =>
    if !is_allowed_action excludeUsers allowedSectionsActions r then
      setSeries acc (extract_record_data r) 1
    else acc) g

/-- Embedding of compliance.py `expose_suspicious_records` (lines
201-216): the gauge is cleared inside the `try` before the query runs, so
processing always starts from the empty series set. -/
def expose_suspicious_records (excludeUsers : List String)
    (allowedSectionsActions : String → List String)
    (qo : QueryOutcome AuditRecord) (_g : List (SuspLabel × Int)) :
    List (SuspLabel × Int) × Nat :=
  let q := query_records_all qo
  (process_suspicious_records excludeUsers allowedSectionsActions
    q.records [], q.errorsLogged)

/-! ### user_login.py — login event monitoring -/

/-- The three unlabeled login gauges. -/
structure LoginGauges where
  loginSuccess : Int
  loginFailure : Int
  uniqueLoginAttempts : Int
deriving DecidableEq

/-- Embedding of `reset_login_gauges` (user_login.py lines 69-75). -/
def reset_login_gauges (_g : LoginGauges) : LoginGauges := ⟨0, 0, 0⟩

/-- An EventLogFile descriptor; `fetch_latest_login_log` reads `Id`
with a strict subscript. -/
structure LoginLogDescriptor where
  id : String

/-- Embedding of `fetch_latest_login_log` (user_login.py lines 78-94):
`Except.error` stands for a raised `raise_for_status` error, `Option`
for the None-on-empty results. -/
def fetch_latest_login_log (qo : QueryOutcome LoginLogDescriptor)
    (download : String → HttpOutcome) :
    Except Unit (Option String) × Nat :=
  let q := query_records_all qo
  match q.records with
  | [] => (.ok none, q.errorsLogged)
  | r :: _ =>
    match download r.id with
    | .failure _ => (.error (), q.errorsLogged)
    | .ok body => (.ok (if body = "" then none else some body), q.errorsLogged)

/-- Embedding of `process_login_log` (user_login.py lines 97-119).
`csvRows` models `csv.DictReader` and `uniqueUserCount` models the
pandas `df['USER_ID'].nunique()` step (`none` = no USER_ID column, which
only logs a warning and leaves the unique gauge at its current value). -/
def process_login_log (csvRows : String → List Row)
    (uniqueUserCount : String → Option Int) (text : String)
    (g : LoginGauges) : LoginGauges :=
  let rows := csvRows text
  let succ := (rows.filter
    (fun r => rowGet? r "LOGIN_STATUS" == some "LOGIN_NO_ERROR")).length
  let fail := rows.length - succ
  match uniqueUserCount text with
  | some n => ⟨succ, fail, n⟩
  | none => ⟨succ, fail, g.uniqueLoginAttempts⟩

/-- Embedding of `monitor_login_events` (user_login.py lines 53-66): the
gauges are reset to 0 before the `try`; a raised fetch error is caught
and logged once (`logger.exception`). -/
def monitor_login_events (csvRows : String → List Row)
    (uniqueUserCount : String → Option Int)
    (qo : QueryOutcome LoginLogDescriptor)
    (download : String → HttpOutcome) (g : LoginGauges) :
    LoginGauges × Nat :=
  let g1 := reset_login_gauges g
  match fetch_latest_login_log qo download with
  | (.error _, e) => (g1, e + 1)
  | (.ok none, e) => (g1, e)
  | (.ok (some text), e) =>
    (process_login_log csvRows uniqueUserCount text g1, e)

/-! ### overall_sf_org.py — limits and licenses -/

/-- One entry of `sf.limits()`. -/
structure LimitEntry where
  name : String
  max : Int
  remaining : Int

/-- Label tuple of `api_usage_percentage_gauge`. -/
structure LimitLabel where
  limitName : String
  limitDescription : String
  limitUtilized : Int
  maxLimit : Int
deriving DecidableEq

/-- Result of one `monitor_salesforce_limits` run: the gauge state, the
errors logged, and every divisor used in a percentage division. -/
structure LimitsRun where
  gauge : List (LimitLabel × ℚ)
  errorsLogged : Nat
  divisors : List Int
deriving DecidableEq

/-- The per-limit loop of `monitor_salesforce_limits` (overall_sf_org.py
lines 64-71): a usage-percentage series is emitted only for limits with
nonzero Max, and the divisors used are collected alongside. -/
def limitsLoop (descs : String → Option String) :
    List (LimitLabel × ℚ) × List Int → List LimitEntry →
    List (LimitLabel × ℚ) × List Int
  | acc, [] => acc
  | acc, e :: es =>
    limitsLoop descs
      (if e.max ≠ 0 then
        (setSeries acc.1
          ⟨e.name, (descs e.name).getD "Description not available",
           e.max - e.remaining, e.max⟩
          ((((e.max - e.remaining : Int) : ℚ) * 100) / (e.max : ℚ)),
         acc.2 ++ [e.max])
      else acc) es

/-- Embedding of `monitor_salesforce_limits` (overall_sf_org.py lines
56-73).  `limitsOutcome = none` is a raised `sf.limits()` call: the
exception is caught before the gauge is cleared, so the previous state
survives with one error logged.  On success the gauge is cleared and
repopulated by `limitsLoop`. -/
def monitor_salesforce_limits (descs : String → Option String)
    (limitsOutcome : Option (List LimitEntry))
    (g : List (LimitLabel × ℚ)) : LimitsRun :=
  match limitsOutcome with
  | none => ⟨g, 1, []⟩
  | some limits =>
    let r := limitsLoop descs ([], []) limits
    ⟨r.1, 0, r.2⟩

/-- A UserLicense record (fields read with strict subscripts). -/
structure UserLicense where
  name : String
  status : String
  totalLicenses : Int
  usedLicenses : Int

/-- A PermissionSetLicense record. -/
structure PermSetLicense where
  masterLabel : String
  status : String
  expirationDate : PyStr
  totalLicenses : Int
  usedLicenses : Int

/-- A TenantUsageEntitlement record; AmountUsed may be null. -/
structure TenantUsageEntitlement where
  masterLabel : String
  currentAmountAllowed : ℚ
  amountUsed : Option ℚ
  endDate : PyStr

/-- Label tuple of `percent_user_licenses_used_gauge`. -/
structure PercentUserLabel where
  licenseName : String
  status : String
  usedLicenses : Int
  totalLicenses : Int
deriving DecidableEq

/-- Label tuple of `percent_permissionset_used_gauge`. -/
structure PercentPermSetLabel where
  licenseName : String
  status : String
  expirationDate : PyStr
  usedLicenses : Int
  totalLicenses : Int
deriving DecidableEq

/-- Label tuple of `percent_usage_based_entitlements_used_gauge`. -/
structure PercentTenantLabel where
  licenseName : String
  expirationDate : PyStr
  usedLicenses : ℚ
  totalLicenses : ℚ
deriving DecidableEq

/-- The nine license gauges cleared and repopulated by
`get_salesforce_licenses`. -/
structure LicenseGauges where
  totalUser : List ((String × String) × ℚ)
  usedUser : List ((String × String) × ℚ)
  percentUser : List (PercentUserLabel × ℚ)
  percentPermSet : List (PercentPermSetLabel × ℚ)
  totalPermSet : List ((String × String) × ℚ)
  usedPermSet : List ((String × String) × ℚ)
  totalTenant : List (String × ℚ)
  usedTenant : List (String × ℚ)
  percentTenant : List (PercentTenantLabel × ℚ)
deriving DecidableEq

/-- The UserLicense loop of `get_salesforce_licenses` (lines 90-103):
total and used always, percentage only when TotalLicenses is nonzero.
The last component collects the divisors used. -/
def userLicenseLoop :
    List ((String × String) × ℚ) × List ((String × String) × ℚ) ×
      List (PercentUserLabel × ℚ) × List Int → List UserLicense →
    List ((String × String) × ℚ) × List ((String × String) × ℚ) ×
      List (PercentUserLabel × ℚ) × List Int
  | acc, [] => acc
  | acc, e :: es =>
    userLicenseLoop
      (if e.totalLicenses ≠ 0 then
        (setSeries acc.1 (e.name, e.status) (e.totalLicenses : ℚ),
         setSeries acc.2.1 (e.name, e.status) (e.usedLicenses : ℚ),
         setSeries acc.2.2.1
           ⟨e.name, e.status, e.usedLicenses, e.totalLicenses⟩
           (((e.usedLicenses : ℚ) / (e.totalLicenses : ℚ)) * 100),
         acc.2.2.2 ++ [e.totalLicenses])
      else
        (setSeries acc.1 (e.name, e.status) (e.totalLicenses : ℚ),
         setSeries acc.2.1 (e.name, e.status) (e.usedLicenses : ℚ),
         acc.2.2.1, acc.2.2.2)) es

/-- The PermissionSetLicense loop (lines 105-118). -/
def permSetLicenseLoop :
    List ((String × String) × ℚ) × List ((String × String) × ℚ) ×
      List (PercentPermSetLabel × ℚ) × List Int → List PermSetLicense →
    List ((String × String) × ℚ) × List ((String × String) × ℚ) ×
      List (PercentPermSetLabel × ℚ) × List Int
  | acc, [] => acc
  | acc, e :: es =>
    permSetLicenseLoop
      (if e.totalLicenses ≠ 0 then
        (setSeries acc.1 (e.masterLabel, e.status) (e.totalLicenses : ℚ),
         setSeries acc.2.1 (e.masterLabel, e.status) (e.usedLicenses : ℚ),
         setSeries acc.2.2.1
           ⟨e.masterLabel, e.status, e.expirationDate, e.usedLicenses,
            e.totalLicenses⟩
           (((e.usedLicenses : ℚ) / (e.totalLicenses : ℚ)) * 100),
         acc.2.2.2 ++ [e.totalLicenses])
      else
        (setSeries acc.1 (e.masterLabel, e.status) (e.totalLicenses : ℚ),
         setSeries acc.2.1 (e.masterLabel, e.status) (e.usedLicenses : ℚ),
         acc.2.2.1, acc.2.2.2)) es

/-- The TenantUsageEntitlement loop (lines 120-133): total always; used
only when AmountUsed is truthy; percentage only when
CurrentAmountAllowed is nonzero and AmountUsed is not null. -/
def tenantUsageLoop :
    List (String × ℚ) × List (String × ℚ) ×
      List (PercentTenantLabel × ℚ) × List ℚ →
    List TenantUsageEntitlement →
    List (String × ℚ) × List (String × ℚ) ×
      List (PercentTenantLabel × ℚ) × List ℚ
  | acc, [] => acc
  | acc, e :: es =>
    tenantUsageLoop
      (match e.amountUsed with
       | some u =>
         if e.currentAmountAllowed ≠ 0 then
           (setSeries acc.1 e.masterLabel e.currentAmountAllowed,
            (if u ≠ 0 then setSeries acc.2.1 e.masterLabel u else acc.2.1),
            setSeries acc.2.2.1
              ⟨e.masterLabel, e.endDate, u, e.currentAmountAllowed⟩
              ((u / e.currentAmountAllowed) * 100),
            acc.2.2.2 ++ [e.currentAmountAllowed])
         else
           (setSeries acc.1 e.masterLabel e.currentAmountAllowed,
            (if u ≠ 0 then setSeries acc.2.1 e.masterLabel u else acc.2.1),
            acc.2.2.1, acc.2.2.2)
       | none =>
         (setSeries acc.1 e.masterLabel e.currentAmountAllowed, acc.2.1,
          acc.2.2.1, acc.2.2.2)) es

/-- Result of one `get_salesforce_licenses` run. -/
structure LicensesRun where
  gauges : LicenseGauges
  errorsLogged : Nat
  divisors : List ℚ
deriving DecidableEq

/-- Embedding of `get_salesforce_licenses` (overall_sf_org.py lines
75-133): all nine gauges are cleared unconditionally before the first
query (there is no try/except around the body), then each loop
repopulates its gauges from whatever its query returned. -/
def get_salesforce_licenses (q1 : QueryOutcome UserLicense)
    (q2 : QueryOutcome PermSetLicense)
    (q3 : QueryOutcome TenantUsageEntitlement) (_g : LicenseGauges) :
    LicensesRun :=
  let r1 := query_records_all q1
  let u := userLicenseLoop ([], [], [], []) r1.records
  let r2 := query_records_all q2
  let p := permSetLicenseLoop ([], [], [], []) r2.records
  let r3 := query_records_all q3
  let t := tenantUsageLoop ([], [], [], []) r3.records
  ⟨⟨u.1, u.2.1, u.2.2.1, p.2.2.1, p.1, p.2.1, t.1, t.2.1, t.2.2.1⟩,
   r1.errorsLogged + r2.errorsLogged + r3.errorsLogged,
   (u.2.2.2.map (fun i : Int => (i : ℚ))) ++ (p.2.2.2.map (fun i : Int => (i : ℚ))) ++
     t.2.2.2⟩

/-! ### salesforce_monitoring.py — startup pass and job registration -/

/-- Observable events of `main` / `schedule_tasks` in execution order. -/
inductive Event where
  | httpServerStart
  | connect
  | startupCall (name : String)
  | registerJob (id : String)
  | schedulerStart
deriving DecidableEq

/-- The collector invocations of the startup pass
(salesforce_monitoring.py lines 189-230), in source order. -/
def startupCalls : List String :=
  ["monitor_salesforce_limits", "monitor_apex_flex_queue",
   "get_salesforce_instance", "get_salesforce_licenses",
   "daily_analyse_bulk_api", "hourly_analyse_bulk_api",
   "get_salesforce_ept_and_apt", "monitor_login_events",
   "async_apex_job_status", "monitor_apex_execution_time",
   "async_apex_execution_summary", "concurrent_apex_errors",
   "expose_concurrent_long_running_apex_errors",
   "expose_apex_exception_metrics",
   "hourly_observe_user_querying_large_records",
   "monitor_org_wide_sharing_settings", "expose_suspicious_records",
   "get_deployment_status", "geolocation",
   "monitor_integration_user_passwords", "unassigned_permission_sets",
   "perm_sets_limited_users", "profile_assignment_under5",
   "profile_no_active_users", "apex_classes_api_version",
   "apex_triggers_api_version", "security_health_check",
   "salesforce_health_risks", "workflow_rules_monitoring",
   "dormant_salesforce_users", "dormant_portal_users",
   "total_queues_per_object", "queues_with_no_members",
   "queues_with_zero_open_cases", "public_groups_with_no_members",
   "dashboards_with_inactive_users"]

/-- The job table of `schedule_tasks` (lines 232-576): job id and default
schedule of every `get_schedule_config`/`add_job` block, in source order.
A `none` default (only `expose_suspicious_records`) registers the job
only when the environment supplies a schedule. -/
def jobTable : List (String × Option Schedule) :=
  [("monitor_salesforce_limits", some [("minute", "*/5")]),
   ("get_salesforce_instance", some [("minute", "*/5")]),
   ("monitor_apex_flex_queue", some [("minute", "*/5")]),
   ("daily_analyse_bulk_api", some [("hour", "7"), ("minute", "30")]),
   ("get_deployment_status", some [("hour", "7"), ("minute", "45")]),
   ("geolocation", some [("hour", "8"), ("minute", "0")]),
   ("monitor_org_wide_sharing_settings",
    some [("hour", "8"), ("minute", "45")]),
   ("monitor_integration_user_passwords",
    some [("hour", "9"), ("minute", "0")]),
   ("unassigned_permission_sets", some [("hour", "9"), ("minute", "15")]),
   ("perm_sets_limited_users", some [("hour", "9"), ("minute", "30")]),
   ("profile_assignment_under5", some [("hour", "9"), ("minute", "45")]),
   ("profile_no_active_users", some [("hour", "10"), ("minute", "0")]),
   ("apex_classes_api_version", some [("hour", "10"), ("minute", "15")]),
   ("apex_triggers_api_version", some [("hour", "10"), ("minute", "30")]),
   ("security_health_check", some [("hour", "10"), ("minute", "45")]),
   ("salesforce_health_risks", some [("hour", "11"), ("minute", "0")]),
   ("workflow_rules_monitoring", some [("hour", "11"), ("minute", "15")]),
   ("dormant_salesforce_users", some [("hour", "11"), ("minute", "30")]),
   ("dormant_portal_users", some [("hour", "11"), ("minute", "45")]),
   ("total_queues_per_object", some [("hour", "12"), ("minute", "0")]),
   ("queues_with_no_members", some [("hour", "12"), ("minute", "15")]),
   ("queues_with_zero_open_cases", some [("hour", "12"), ("minute", "30")]),
   ("public_groups_with_no_members",
    some [("hour", "12"), ("minute", "45")]),
   ("dashboards_with_inactive_users",
    some [("hour", "13"), ("minute", "0")]),
   ("get_salesforce_ept_and_apt", some [("hour", "6"), ("minute", "0")]),
   ("monitor_login_events", some [("hour", "6"), ("minute", "15")]),
   ("async_apex_job_status", some [("hour", "6"), ("minute", "30")]),
   ("monitor_apex_execution_time", some [("hour", "6"), ("minute", "45")]),
   ("async_apex_execution_summary", some [("hour", "7"), ("minute", "0")]),
   ("concurrent_apex_errors", some [("hour", "7"), ("minute", "15")]),
   ("expose_apex_exception_metrics",
    some [("hour", "7"), ("minute", "30")]),
   ("hourly_analyse_bulk_api", some [("minute", "0")]),
   ("get_salesforce_licenses", some [("minute", "10,50")]),
   ("hourly_observe_user_querying_large_records",
    some [("minute", "20")]),
   ("hourly_report_export_records", some [("minute", "40")]),
   ("expose_suspicious_records", none)]

/-- Job ids that `schedule_tasks` registers with APScheduler under a
given environment. -/
def registered_jobs (env : String → Option String)
    (jsonLoads : String → Option Schedule) : List String :=
  jobTable.filterMap (fun jd =>
    if (get_schedule_config env jsonLoads jd.1 jd.2).isSome then some jd.1
    else none)

/-- Everything `main` does before `scheduler.start()`: metrics server,
session, the synchronous startup pass, then job registration. -/
def mainPrelude (env : String → Option String)
    (jsonLoads : String → Option Schedule) : List Event :=
  [Event.httpServerStart, Event.connect] ++
    startupCalls.map Event.startupCall ++
    (registered_jobs env jsonLoads).map Event.registerJob

/-- The event trace of `main` (lines 581-599); trigger-driven dispatch
can only happen after the final `scheduler.start()` event. -/
def main_trace (env : String → Option String)
    (jsonLoads : String → Option Schedule) : List Event :=
  mainPrelude env jsonLoads ++ [Event.schedulerStart]

/-- An environment with no schedule overrides set. -/
def noEnv : String → Option String := fun _ => none

end Sfmon

namespace Sfmon

theorem load_config_cached (w : FileWorld) (st : CfgState) (c : Config)
    (h : st.cachedConfig = some c) : load_config w false st = (c, st) := by
  obtain ⟨cc, hs⟩ := st
  dsimp at h
  subst h
  rfl

theorem load_config_sets_cache (w : FileWorld) (f : Bool) (st : CfgState) :
    ((load_config w f st).2).cachedConfig = some (load_config w f st).1 := by
  obtain ⟨cc, hs⟩ := st
  cases cc <;> cases f <;> cases w <;> rfl

theorem load_config_seq_cached (c0 : Config) :
    ∀ (ws : List FileWorld) (st : CfgState), st.cachedConfig = some c0 →
      ∀ c ∈ load_config_seq st ws, c = c0 := by
  intro ws
  induction ws with
  | nil => intro st _ c hc; simp [load_config_seq] at hc
  | cons w ws ih =>
    intro st hst c hc
    rw [load_config_seq, load_config_cached w st c0 hst] at hc
    rcases List.mem_cons.mp hc with h | h
    · exact h
    · exact ih st hst c h

/-- C10: configuration loading is idempotent after the first call — in any
sequence of `load_config(force_reload=False)` calls from the initial
module state, every call returns the value of the first call, no matter
how the config file or environment changes in between. -/
theorem load_config_idempotent_after_first (w0 : FileWorld)
    (ws : List FileWorld) (c : Config)
    (hc : c ∈ load_config_seq initCfgState (w0 :: ws)) :
    c = (load_config w0 false initCfgState).1 := by
  rw [load_config_seq] at hc
  rcases List.mem_cons.mp hc with h | h
  · exact h
  · exact load_config_seq_cached (load_config w0 false initCfgState).1 ws
      (load_config w0 false initCfgState).2 (load_config_sets_cache w0 false initCfgState) c h

/-- Witness for C10: a missing file on the first call pins the default
configuration even when a later call sees a parsed file with schedules. -/
theorem load_config_idempotent_after_first_witness :
    defaultConfig ∈ load_config_seq initCfgState
        [FileWorld.missing, FileWorld.parsed [("a", "b")] none []] ∧
    defaultConfig = (load_config .missing false initCfgState).1 :=
  ⟨by decide, load_config_idempotent_after_first FileWorld.missing
      [FileWorld.parsed [("a", "b")] none []] defaultConfig (by decide)⟩

/-- Counterexample to C3: with the schedule variable set to the malformed
string `garbage`, the parser logs a warning and returns `None`, and
`get_schedule_config` then returns `None` — the job is skipped — rather
than falling back to the documented default trigger. -/
theorem schedule_malformed_not_default_counterexample :
    get_schedule_config c3Env noJson "monitor_salesforce_limits"
        (some [("minute", "*/5")]) = none ∧
    (parse_cron_schedule_log noJson "garbage").2 = 1 ∧
    (none : Option Schedule) ≠ some [("minute", "*/5")] := by
  decide

/-- C3 (amended): the parser maps the five-field cron string to an
every-5-minutes trigger and the parameter string to a daily-07:30
trigger; `disabled` yields no registration; and a malformed input logs a
warning and likewise leaves the job unregistered (it is treated like
`disabled`, not replaced by the default) — both on the environment path
(`get_schedule_config`) and on the config-file path
(`get_schedule_from_config`). -/
theorem schedule_parser_amended (jl : String → Option Schedule)
    (env : String → Option String) (jobId : String) (d : Option Schedule) :
    parse_cron_schedule jl "*/5 * * * *" = some [("minute", "*/5")] ∧
    parse_cron_schedule jl "hour=7,minute=30" =
      some [("hour", "7"), ("minute", "30")] ∧
    parse_cron_schedule jl "disabled" = none ∧
    (env ("SCHEDULE_" ++ pyUpper jobId) = some "disabled" →
      get_schedule_config env jl jobId d = none) ∧
    (∀ s, env ("SCHEDULE_" ++ pyUpper jobId) = some s → s ≠ "" →
      parse_cron_schedule_log jl s = (none, 1) →
      get_schedule_config env jl jobId d = none) ∧
    (∀ st cfg s, st.cachedConfig = some cfg → st.hasSchedules = some true →
      rowGet? cfg.schedules (pyLower jobId) = some s →
      parse_cron_schedule jl s = none →
      ∀ w, (get_schedule_from_config jl w st jobId d).1 = none) := by
  refine ⟨rfl, rfl, rfl, ?_, ?_, ?_⟩
  · intro h
    simp only [get_schedule_config, h]
    rfl
  · intro s hs hne hp
    have hpc : parse_cron_schedule jl s = none := by
      rw [parse_cron_schedule, hp]
    simp only [get_schedule_config, hs, hpc]
    simp [hne]
  · intro st cfg s hcc hhs hlook hparse w
    have h1 : load_config w false st = (cfg, st) := load_config_cached w st cfg hcc
    have h2 : has_custom_schedules w st = (true, st) := by
      simp [has_custom_schedules, hhs]
    simp only [get_schedule_from_config, h1, h2, hlook, hparse]
    simp

/-- Witness for C3's amended theorem: concrete env carrying `disabled`
for a concrete job is skipped. -/
theorem schedule_parser_amended_witness :
    get_schedule_config
        (fun n => if n = "SCHEDULE_GEOLOCATION" then some "disabled" else none)
        noJson "geolocation" (some [("hour", "8"), ("minute", "0")]) = none :=
  (schedule_parser_amended noJson
      (fun n => if n = "SCHEDULE_GEOLOCATION" then some "disabled" else none)
      "geolocation" (some [("hour", "8"), ("minute", "0")])).2.2.2.1 (by decide)

/-- C4: the paged query helpers (standard and tooling) never raise: on
timeout, malformed request or any other exception they log exactly one
error and return the empty sequence, and a response without a `records`
field also yields the empty sequence — so a caller sees the same empty
list for a failure as for zero matches. -/
theorem query_helpers_total_and_collapse_failures :
    (∀ qo : QueryOutcome Row, qo.isFailure = true →
      query_records_all qo = ⟨[], 1⟩ ∧ tooling_query_records_all qo = ⟨[], 1⟩) ∧
    query_records_all (α := Row) (.ok none) = ⟨[], 0⟩ ∧
    tooling_query_records_all (α := Row) (.ok none) = ⟨[], 0⟩ ∧
    (query_records_all (α := Row) .timeout).records =
      (query_records_all (α := Row) (.ok (some []))).records := by
  refine ⟨?_, rfl, rfl, rfl⟩
  intro qo h
  cases qo with
  | ok r => simp [QueryOutcome.isFailure] at h
  | timeout => exact ⟨rfl, rfl⟩
  | malformed m => exact ⟨rfl, rfl⟩
  | exn m => exact ⟨rfl, rfl⟩

/-- Witness for C4: the helper applied to a concrete timeout. -/
theorem query_helpers_total_and_collapse_failures_witness :
    query_records_all (α := Row) .timeout = ⟨[], 1⟩ :=
  ((query_helpers_total_and_collapse_failures.1 .timeout rfl).1)

/-- C7: `parse_logs` returns nothing when the selector query yields no log
descriptors, on HTTP failure, and on empty body; otherwise it returns a
row-oriented reader over the body of the first (newest, by the selector's
descending LogDate ordering) matching log. -/
theorem parse_logs_spec (qo : QueryOutcome Row)
    (download : String → HttpOutcome) :
    (∀ e, query_records_all qo = ⟨[], e⟩ →
      parse_logs qo download = (none, e)) ∧
    (∀ r rest e logId, query_records_all qo = ⟨r :: rest, e⟩ →
      rowGet? r "Id" = some logId →
      ((∀ m, download logId = .failure m →
          parse_logs qo download = (none, e + 1)) ∧
       (download logId = .ok "" →
          parse_logs qo download = (none, e)) ∧
       (∀ body, download logId = .ok body → body ≠ "" →
          parse_logs qo download = (some ⟨body⟩, e)))) := by
  constructor
  · intro e h
    simp only [parse_logs, h]
  · intro r rest e logId hrec hid
    refine ⟨?_, ?_, ?_⟩
    · intro m hm
      simp only [parse_logs, hrec, hid, hm]
    · intro hm
      simp [parse_logs, hrec, hid, hm]
    · intro body hm hne
      simp only [parse_logs, hrec, hid, hm, if_neg hne]

/-- Witness for C7: a concrete one-record query whose download succeeds
with a nonempty body yields a reader over that body. -/
theorem parse_logs_spec_witness :
    parse_logs (.ok (some [[("Id", "L1")]]))
        (fun _ => .ok "A,B\r\n1,2") = (some ⟨"A,B\r\n1,2"⟩, 0) :=
  ((parse_logs_spec (.ok (some [[("Id", "L1")]]))
      (fun _ => .ok "A,B\r\n1,2")).2 [("Id", "L1")] [] 0 "L1" rfl rfl).2.2
    "A,B\r\n1,2" rfl (by decide)

/-- C8: the session provider raises `ValueError` before any external
command runs when the credential is missing or empty; it logs and then
re-raises (propagates) when the CLI exits non-zero or when an expected
field is missing from the CLI's JSON output; and it never retries — at
most two external commands run on any input. -/
theorem session_provider_spec (url : Option String) (env : CliEnv) :
    ((url = none ∨ url = some "") →
      get_salesforce_connection_url url env = (.error .valueError, ⟨0, 0⟩)) ∧
    (∀ u p a b, url = some u → u ≠ "" → env.sfPath = some p →
      env.login = .nonzero a b →
      get_salesforce_connection_url url env =
        (.error .calledProcessError, ⟨1, 3⟩)) ∧
    (∀ u p lo dout info, url = some u → u ≠ "" → env.sfPath = some p →
      env.login = .ok lo → env.display = .ok dout →
      env.jsonLoads dout = some info → info.result = none →
      get_salesforce_connection_url url env = (.error .keyError, ⟨2, 1⟩)) ∧
    (get_salesforce_connection_url url env).2.commandsRun ≤ 2 := by
  obtain ⟨sp, lo, di, jl⟩ := env
  refine ⟨?_, ?_, ?_, ?_⟩
  · rintro (rfl | rfl) <;> rfl
  · intro u p a b huu hne hp hl
    subst huu
    simp only at hp hl
    simp [get_salesforce_connection_url, hne, hp, hl]
  · intro u p lo2 dout info huu hne hp hl hd hj hres
    subst huu
    simp only at hp hl hd hj
    simp [get_salesforce_connection_url, hne, hp, hl, hd, hj, hres]
  · rcases url with _ | u
    · simp [get_salesforce_connection_url]
    · by_cases hu : u = ""
      · simp [get_salesforce_connection_url, hu]
      · cases sp with
        | none => simp [get_salesforce_connection_url, hu]
        | some p =>
          cases lo with
          | nonzero a b => simp [get_salesforce_connection_url, hu]
          | ok o =>
            cases di with
            | nonzero a b => simp [get_salesforce_connection_url, hu]
            | ok dout =>
              cases hj : jl dout with
              | none => simp [get_salesforce_connection_url, hu, hj]
              | some info =>
                obtain ⟨res⟩ := info
                cases res with
                | none => simp [get_salesforce_connection_url, hu, hj]
                | some r =>
                  obtain ⟨ta, ia, va⟩ := r
                  cases ta <;> cases ia <;> cases va <;>
                    simp [get_salesforce_connection_url, hu, hj]

/-- Witness for C8: a missing credential runs no external command, and a
failing login command propagates after one command. -/
theorem session_provider_spec_witness :
    get_salesforce_connection_url none
        ⟨some "sf", .ok "", .ok "", fun _ => none⟩ =
      (.error .valueError, ⟨0, 0⟩) ∧
    get_salesforce_connection_url (some "force://u")
        ⟨some "sf", .nonzero "boom" "", .ok "", fun _ => none⟩ =
      (.error .calledProcessError, ⟨1, 3⟩) :=
  ⟨(session_provider_spec none ⟨some "sf", .ok "", .ok "", fun _ => none⟩).1
      (Or.inl rfl),
   (session_provider_spec (some "force://u")
      ⟨some "sf", .nonzero "boom" "", .ok "", fun _ => none⟩).2.1
      "force://u" "sf" "boom" "" rfl (by decide) rfl rfl⟩

theorem query_records_all_failure {α : Type} (qo : QueryOutcome α)
    (h : qo.isFailure = true) : query_records_all qo = ⟨[], 1⟩ := by
  cases qo with
  | ok r => simp [QueryOutcome.isFailure] at h
  | timeout => rfl
  | malformed m => rfl
  | exn m => rfl

theorem query_records_all_ok_errors {α : Type} (qo : QueryOutcome α)
    (h : qo.isFailure = false) : (query_records_all qo).errorsLogged = 0 := by
  cases qo with
  | ok r => cases r <;> rfl
  | timeout => simp [QueryOutcome.isFailure] at h
  | malformed m => simp [QueryOutcome.isFailure] at h
  | exn m => simp [QueryOutcome.isFailure] at h

theorem mem_setSeries {L V : Type} [BEq L] {s : List (L × V)} {lab : L}
    {v : V} {x : L × V} (hx : x ∈ setSeries s lab v) :
    x ∈ s ∨ x = (lab, v) := by
  unfold setSeries at hx
  by_cases h : s.any (fun p => p.1 == lab) = true
  · rw [if_pos h] at hx
    obtain ⟨p, hp, he⟩ := List.mem_map.mp hx
    by_cases hb : (p.1 == lab) = true
    · right; rw [← he, if_pos hb]
    · left; rw [← he, if_neg hb]; exact hp
  · rw [if_neg h] at hx
    rcases List.mem_append.mp hx with h1 | h1
    · left; exact h1
    · right; simpa using h1

/-- Counterexample to C1: `monitor_login_events` with a timed-out query
logs exactly one error, yet the login gauges end at 0 rather than at
their pre-call snapshot (5, 2, 3) — the reset happens before the try. -/
theorem collector_failure_counterexample :
    monitor_login_events (fun _ => []) (fun _ => none) .timeout
        (fun _ => .failure "net") ⟨5, 2, 3⟩ = (⟨0, 0, 0⟩, 1) ∧
    ((⟨0, 0, 0⟩ : LoginGauges) ≠ ⟨5, 2, 3⟩) :=
  ⟨rfl, by decide⟩

/-- C1 (amended): when the query or log-fetch step of these collectors
fails, exactly one error is logged and the collector returns normally
(the scheduler survives), but the gauge set is not left at its pre-call
snapshot: `monitor_login_events` has reset its gauges to 0 before the
try, `expose_suspicious_records` has cleared its gauge before querying,
and `get_salesforce_licenses` clears all its gauges unconditionally, so
its final state is independent of the pre-call state and a failed query
leaves the corresponding gauges empty.  Only `monitor_salesforce_limits`
preserves the prior snapshot, because its clear sits after the fetch. -/
theorem collector_failure_amended (csvRows : String → List Row)
    (uniq : String → Option Int) (download : String → HttpOutcome)
    (excl : List String) (allowed : String → List String)
    (descs : String → Option String) :
    (∀ (qo : QueryOutcome LoginLogDescriptor) (g : LoginGauges),
      qo.isFailure = true →
      monitor_login_events csvRows uniq qo download g = (⟨0, 0, 0⟩, 1)) ∧
    (∀ (d : LoginLogDescriptor) (rest : List LoginLogDescriptor)
       (g : LoginGauges) (m : String), download d.id = .failure m →
      monitor_login_events csvRows uniq (.ok (some (d :: rest))) download g =
        (⟨0, 0, 0⟩, 1)) ∧
    (∀ (qo : QueryOutcome AuditRecord) (g : List (SuspLabel × Int)),
      qo.isFailure = true →
      expose_suspicious_records excl allowed qo g = ([], 1)) ∧
    (∀ (q1 : QueryOutcome UserLicense) (q2 : QueryOutcome PermSetLicense)
       (q3 : QueryOutcome TenantUsageEntitlement) (g g2 : LicenseGauges),
      get_salesforce_licenses q1 q2 q3 g =
        get_salesforce_licenses q1 q2 q3 g2) ∧
    (∀ (q1 : QueryOutcome UserLicense) (q2 : QueryOutcome PermSetLicense)
       (q3 : QueryOutcome TenantUsageEntitlement) (g : LicenseGauges),
      q1.isFailure = true → q2.isFailure = false → q3.isFailure = false →
      (get_salesforce_licenses q1 q2 q3 g).gauges.totalUser = [] ∧
      (get_salesforce_licenses q1 q2 q3 g).gauges.usedUser = [] ∧
      (get_salesforce_licenses q1 q2 q3 g).gauges.percentUser = [] ∧
      (get_salesforce_licenses q1 q2 q3 g).errorsLogged = 1) ∧
    (∀ (g : List (LimitLabel × ℚ)),
      monitor_salesforce_limits descs none g = ⟨g, 1, []⟩) := by
  refine ⟨?_, ?_, ?_, ?_, ?_, ?_⟩
  · intro qo g h
    have hq := query_records_all_failure qo h
    simp [monitor_login_events, fetch_latest_login_log, hq,
      reset_login_gauges]
  · intro d rest g m hm
    simp [monitor_login_events, fetch_latest_login_log, query_records_all,
      hm, reset_login_gauges]
  · intro qo g h
    have hq := query_records_all_failure qo h
    simp [expose_suspicious_records, process_suspicious_records, hq]
  · intro q1 q2 q3 g g2
    rfl
  · intro q1 q2 q3 g h1 h2 h3
    have hq1 := query_records_all_failure q1 h1
    refine ⟨?_, ?_, ?_, ?_⟩
    · simp [get_salesforce_licenses, hq1, userLicenseLoop]
    · simp [get_salesforce_licenses, hq1, userLicenseLoop]
    · simp [get_salesforce_licenses, hq1, userLicenseLoop]
    · simp [get_salesforce_licenses, hq1,
        query_records_all_ok_errors q2 h2, query_records_all_ok_errors q3 h3]
  · intro g
    rfl

/-- Witness for C1's amended theorem: a concrete timed-out audit-trail
query leaves the suspicious-records gauge cleared with one error. -/
theorem collector_failure_amended_witness :
    expose_suspicious_records [] (fun _ => []) QueryOutcome.timeout
        [(⟨"a", "s", "u", "c", "d", "g"⟩, 1)] = ([], 1) :=
  (collector_failure_amended (fun _ => []) (fun _ => none)
      (fun _ => HttpOutcome.ok "") [] (fun _ => []) (fun _ => none)).2.2.1
    .timeout [(⟨"a", "s", "u", "c", "d", "g"⟩, 1)] rfl

/-- Counterexample to C2: the compliance-module `report_large_queries`
run with zero result rows leaves its gauge with zero exported series —
there is no sentinel branch, so the result is not one sentinel series. -/
theorem empty_result_sentinel_counterexample :
    compliance_report_large_queries
        [(⟨"005", "User", some "Query", some "Account", 20000⟩, 1)] [] = [] ∧
    ([] : List (CLQLabel × Int)).length ≠ 1 :=
  ⟨rfl, by decide⟩

/-- C2 (amended): after a successful run with zero result rows, the
audit-module `report_large_queries` exports exactly one sentinel series
(user_id `none`, user_name `No Large Queries`, method `none`,
entity_name `none`, value 0), but the compliance-module variant exports
no series at all — its gauge is simply cleared. -/
theorem empty_result_sentinel_amended (g : List (LQLabel × Int))
    (g2 : List (CLQLabel × Int)) :
    audit_report_large_queries g [] = [(sentinelLQLabel, 0)] ∧
    compliance_report_large_queries g2 [] = [] :=
  ⟨rfl, rfl⟩

/-- C6: three source rows with ROWS_PROCESSED 5000, 15000 and 20000 at
threshold 10000: the audit pipeline sets exactly the two series for the
rows strictly above the threshold, with user_id, method, entity_name and
the value copied verbatim from those rows (user_name comes from the
`get_user_name` lookup); `compliance.is_large_query` classifies the same
rows identically with its fixed 10000 threshold. -/
theorem large_query_scenario :
    audit_report_large_queries [(sentinelLQLabel, 7)]
        (audit_collect_large_queries 10000
          (fun uid => String.append "User " uid)
          (some [[("USER_ID", "005001"), ("METHOD_NAME", "Query"),
                  ("ENTITY_NAME", "Account"), ("ROWS_PROCESSED", "5000")],
                 [("USER_ID", "005002"), ("METHOD_NAME", "Query"),
                  ("ENTITY_NAME", "Contact"), ("ROWS_PROCESSED", "15000")],
                 [("USER_ID", "005003"), ("METHOD_NAME", "Export"),
                  ("ENTITY_NAME", "Lead"), ("ROWS_PROCESSED", "20000")]])) =
      [(⟨"005002", "User 005002", some "Query", some "Contact"⟩, 15000),
       (⟨"005003", "User 005003", some "Export", some "Lead"⟩, 20000)] ∧
    compliance_is_large_query [("ROWS_PROCESSED", "5000")] = false ∧
    compliance_is_large_query [("ROWS_PROCESSED", "15000")] = true ∧
    compliance_is_large_query [("ROWS_PROCESSED", "20000")] = true := by
  refine ⟨by decide, by decide, by decide, by decide⟩

theorem limitsLoop_inv (descs : String → Option String)
    (l : List LimitEntry) :
    ∀ acc : List (LimitLabel × ℚ) × List Int,
      (∀ p ∈ acc.1, p.1.maxLimit ≠ 0) → (0 : Int) ∉ acc.2 →
      (∀ p ∈ (limitsLoop descs acc l).1, p.1.maxLimit ≠ 0) ∧
        (0 : Int) ∉ (limitsLoop descs acc l).2 := by
  induction l with
  | nil => intro acc h1 h2; exact ⟨h1, h2⟩
  | cons e es ih =>
    intro acc h1 h2
    rw [limitsLoop]
    by_cases he : e.max ≠ 0
    · rw [if_pos he]
      apply ih
      · intro p hp
        rcases mem_setSeries hp with hmem | heq
        · exact h1 p hmem
        · rw [heq]; exact he
      · intro h0
        rcases List.mem_append.mp h0 with hmem | hmem
        · exact h2 hmem
        · rw [List.mem_singleton] at hmem; exact he hmem.symm
    · rw [if_neg he]; exact ih acc h1 h2

theorem userLicenseLoop_inv (l : List UserLicense) :
    ∀ acc, (∀ p ∈ acc.2.2.1, p.1.totalLicenses ≠ 0) →
      (0 : Int) ∉ acc.2.2.2 →
      (∀ p ∈ (userLicenseLoop acc l).2.2.1, p.1.totalLicenses ≠ 0) ∧
        (0 : Int) ∉ (userLicenseLoop acc l).2.2.2 := by
  induction l with
  | nil => intro acc h1 h2; exact ⟨h1, h2⟩
  | cons e es ih =>
    intro acc h1 h2
    rw [userLicenseLoop]
    by_cases he : e.totalLicenses ≠ 0
    · rw [if_pos he]
      apply ih
      · intro p hp
        rcases mem_setSeries hp with hmem | heq
        · exact h1 p hmem
        · rw [heq]; exact he
      · intro h0
        rcases List.mem_append.mp h0 with hmem | hmem
        · exact h2 hmem
        · rw [List.mem_singleton] at hmem; exact he hmem.symm
    · rw [if_neg he]; exact ih _ h1 h2

theorem permSetLicenseLoop_inv (l : List PermSetLicense) :
    ∀ acc, (∀ p ∈ acc.2.2.1, p.1.totalLicenses ≠ 0) →
      (0 : Int) ∉ acc.2.2.2 →
      (∀ p ∈ (permSetLicenseLoop acc l).2.2.1, p.1.totalLicenses ≠ 0) ∧
        (0 : Int) ∉ (permSetLicenseLoop acc l).2.2.2 := by
  induction l with
  | nil => intro acc h1 h2; exact ⟨h1, h2⟩
  | cons e es ih =>
    intro acc h1 h2
    rw [permSetLicenseLoop]
    by_cases he : e.totalLicenses ≠ 0
    · rw [if_pos he]
      apply ih
      · intro p hp
        rcases mem_setSeries hp with hmem | heq
        · exact h1 p hmem
        · rw [heq]; exact he
      · intro h0
        rcases List.mem_append.mp h0 with hmem | hmem
        · exact h2 hmem
        · rw [List.mem_singleton] at hmem; exact he hmem.symm
    · rw [if_neg he]; exact ih _ h1 h2

theorem tenantUsageLoop_inv (l : List TenantUsageEntitlement) :
    ∀ acc, (∀ p ∈ acc.2.2.1, p.1.totalLicenses ≠ 0) →
      (0 : ℚ) ∉ acc.2.2.2 →
      (∀ p ∈ (tenantUsageLoop acc l).2.2.1, p.1.totalLicenses ≠ 0) ∧
        (0 : ℚ) ∉ (tenantUsageLoop acc l).2.2.2 := by
  induction l with
  | nil => intro acc h1 h2; exact ⟨h1, h2⟩
  | cons e es ih =>
    intro acc h1 h2
    rw [tenantUsageLoop]
    cases hu : e.amountUsed with
    | none => exact ih _ h1 h2
    | some u =>
      dsimp only
      by_cases he : e.currentAmountAllowed ≠ 0
      · rw [if_pos he]
        apply ih
        · intro p hp
          rcases mem_setSeries hp with hmem | heq
          · exact h1 p hmem
          · rw [heq]; exact he
        · intro h0
          rcases List.mem_append.mp h0 with hmem | hmem
          · exact h2 hmem
          · rw [List.mem_singleton] at hmem; exact he hmem.symm
      · rw [if_neg he]; exact ih _ h1 h2

/-- C9: every division in the limits and licenses collectors is guarded.
A limit entry with Max 0 contributes no series and no division (every
emitted series has a nonzero max_limit label and 0 never appears among
the divisors); a license entry with zero total contributes no percentage
series; hence no run of these collectors divides by zero. -/
theorem guarded_divisions (descs : String → Option String)
    (limits : List LimitEntry) (g : List (LimitLabel × ℚ))
    (q1 : QueryOutcome UserLicense) (q2 : QueryOutcome PermSetLicense)
    (q3 : QueryOutcome TenantUsageEntitlement) (g2 : LicenseGauges) :
    ((0 : Int) ∉ (monitor_salesforce_limits descs (some limits) g).divisors) ∧
    (∀ p ∈ (monitor_salesforce_limits descs (some limits) g).gauge,
      p.1.maxLimit ≠ 0) ∧
    ((0 : ℚ) ∉ (get_salesforce_licenses q1 q2 q3 g2).divisors) ∧
    (∀ p ∈ (get_salesforce_licenses q1 q2 q3 g2).gauges.percentUser,
      p.1.totalLicenses ≠ 0) ∧
    (∀ p ∈ (get_salesforce_licenses q1 q2 q3 g2).gauges.percentPermSet,
      p.1.totalLicenses ≠ 0) ∧
    (∀ p ∈ (get_salesforce_licenses q1 q2 q3 g2).gauges.percentTenant,
      p.1.totalLicenses ≠ 0) := by
  have hlim := limitsLoop_inv descs limits ([], []) (by simp) (by simp)
  have hu := userLicenseLoop_inv (query_records_all q1).records
    ([], [], [], []) (by simp) (by simp)
  have hp := permSetLicenseLoop_inv (query_records_all q2).records
    ([], [], [], []) (by simp) (by simp)
  have ht := tenantUsageLoop_inv (query_records_all q3).records
    ([], [], [], []) (by simp) (by simp)
  refine ⟨hlim.2, hlim.1, ?_, hu.1, hp.1, ht.1⟩
  intro h0
  have hform : (get_salesforce_licenses q1 q2 q3 g2).divisors =
      ((userLicenseLoop ([], [], [], [])
          (query_records_all q1).records).2.2.2.map (fun i : Int => (i : ℚ))) ++
        ((permSetLicenseLoop ([], [], [], [])
          (query_records_all q2).records).2.2.2.map (fun i : Int => (i : ℚ))) ++
        (tenantUsageLoop ([], [], [], [])
          (query_records_all q3).records).2.2.2 := rfl
  rw [hform] at h0
  rcases List.mem_append.mp h0 with h01 | h02
  · rcases List.mem_append.mp h01 with ha | hb
    · obtain ⟨i, hi, hcast⟩ := List.mem_map.mp ha
      have hz : i = 0 := by exact_mod_cast hcast
      rw [hz] at hi
      exact hu.2 hi
    · obtain ⟨i, hi, hcast⟩ := List.mem_map.mp hb
      have hz : i = 0 := by exact_mod_cast hcast
      rw [hz] at hi
      exact hp.2 hi
  · exact ht.2 h02

/-- Counterexample to C5: with no schedule overrides,
`hourly_report_export_records` is registered (its default is minute=40),
yet it never appears in the startup pass — so not every registered job is
invoked during startup. -/
theorem startup_pass_counterexample :
    "hourly_report_export_records" ∈ registered_jobs noEnv noJson ∧
    startupCalls.count "hourly_report_export_records" = 0 :=
  ⟨by decide, by decide⟩

/-- C5 (amended): every job the scheduler registers, except
`hourly_report_export_records`, is invoked exactly once during the
synchronous startup pass, and every startup invocation precedes the
`scheduler.start()` event, so all startup invocations complete before
any trigger-driven dispatch; `hourly_report_export_records` alone is
registered without ever being run at startup. -/
theorem startup_pass_amended (env : String → Option String)
    (jl : String → Option Schedule) (job : String)
    (hjob : job ∈ registered_jobs env jl)
    (hne : job ≠ "hourly_report_export_records") :
    startupCalls.count job = 1 ∧
    (∀ (i : Nat) (n : String),
      (main_trace env jl)[i]? = some (Event.startupCall n) →
      ∃ j, i < j ∧ (main_trace env jl)[j]? = some Event.schedulerStart) := by
  constructor
  · have hin : job ∈ jobTable.map Prod.fst := by
      obtain ⟨jd, hjd, heq⟩ := List.mem_filterMap.mp hjob
      by_cases hc : (get_schedule_config env jl jd.1 jd.2).isSome = true
      · rw [if_pos hc] at heq
        obtain rfl := Option.some.inj heq
        exact List.mem_map.mpr ⟨jd, hjd, rfl⟩
      · rw [if_neg hc] at heq
        exact absurd heq (by simp)
    have hall : ∀ j ∈ jobTable.map Prod.fst,
        j = "hourly_report_export_records" ∨ startupCalls.count j = 1 := by
      decide
    rcases hall job hin with h | h
    · exact absurd h hne
    · exact h
  · intro i n hi
    have hlast : (main_trace env jl)[(mainPrelude env jl).length]? =
        some Event.schedulerStart := by
      rw [main_trace, List.getElem?_append_right (le_refl _)]
      simp
    by_cases hlt : i < (mainPrelude env jl).length
    · exact ⟨(mainPrelude env jl).length, hlt, hlast⟩
    · exfalso
      push_neg at hlt
      rw [main_trace, List.getElem?_append_right hlt] at hi
      cases h0 : i - (mainPrelude env jl).length with
      | zero => rw [h0] at hi; simp at hi
      | succ k => rw [h0] at hi; simp at hi

/-- Witness for C5's amended theorem: the limits collector is registered
by default and counted exactly once in the startup pass. -/
theorem startup_pass_amended_witness :
    startupCalls.count "monitor_salesforce_limits" = 1 :=
  (startup_pass_amended noEnv noJson "monitor_salesforce_limits"
    (by decide) (by decide)).1

/-- Witness for C9: a concrete limits run with Max 4 emits a series whose
max_limit label is nonzero. -/
theorem guarded_divisions_witness :
    ((⟨⟨"A", "Description not available", 3, 4⟩,
        (((3 : Int) : ℚ) * 100) / ((4 : Int) : ℚ)⟩ :
      LimitLabel × ℚ).1).maxLimit ≠ 0 :=
  (guarded_divisions (fun _ => none) [⟨"A", 4, 1⟩] [] .timeout .timeout
      .timeout ⟨[], [], [], [], [], [], [], [], []⟩).2.1 _ (List.Mem.head _)

end Sfmon
